import Mathlib

/-!
# MangaNotify watchlist reconciliation engine: a shallow embedding

This file models the core of the MangaNotify repository in Lean 4 and proves
properties of that model.  The embedded code is:

* `src/manganotify/core/utils.py` (`to_int`),
* `src/manganotify/services/watchlist.py` (`pick_cover`,
  `derive_last_chapter_at`, `load_watchlist`),
* `src/manganotify/services/notifications.py` (`next_notification_id`,
  `add_notification`, `pushover`, `discord_notify`),
* `src/manganotify/services/poller.py` (`_should_send_notification`,
  `process_once`, `poll_loop`),
* `src/manganotify/storage/json_store.py` (`load_json`).

Python dictionaries are embedded as structures holding exactly the fields the
embedded code reads or writes; a field that may be absent (or `None`) is an
`Option`.  Dynamic values that flow into `to_int` are embedded as `PyVal`
(`None`, `int`, or `str`).  I/O collaborators (the upstream HTTP client, the
notification HTTP posts, the clock) are passed in explicitly as environment
records; an escaping Python exception is an `Except.error` or a dedicated
constructor.  Time delays are recorded as rationals (seconds).
-/

/-- A dynamic (JSON-ish) Python value as it appears in the fields that the
poller feeds to `to_int`: `None`, an `int`, or a `str`. -/
inductive PyVal
  | none
  | int (n : Int)
  | str (s : String)
  deriving DecidableEq, Repr

/-- Whitespace characters removed by Python `str.strip()` (the ASCII ones;
Unicode whitespace is not modelled). -/
def pyIsSpace (c : Char) : Bool :=
  c == ' ' || c == '\t' || c == '\n' || c == '\r' || c == '\x0b' || c == '\x0c'

/-- Python `s.strip()` on a character list: drop leading and trailing
whitespace. -/
def pyStrip (cs : List Char) : List Char :=
  ((cs.dropWhile pyIsSpace).reverse.dropWhile pyIsSpace).reverse

/-- Numeric value of a list of decimal digit characters (most significant
first), as accumulated by Python `int` parsing. -/
def digitsVal (ds : List Char) : Nat :=
  ds.foldl (fun a c => a * 10 + (c.toNat - 48)) 0

/-- Split a leading sign character off a character list, returning the sign
(`1` or `-1`) and the remainder, as Python numeric parsing does. -/
def splitSign : List Char → Int × List Char
  | '-' :: cs => (-1, cs)
  | '+' :: cs => (1, cs)
  | cs => (1, cs)

/-- Python `int(s)` on an already-stripped string: an optional sign followed
by at least one decimal digit.  (Underscore digit separators and non-ASCII
digits, which CPython also accepts, are not modelled; no value in this
development uses them.) -/
def pyParseInt (cs : List Char) : Option Int :=
  let (sg, ds) := splitSign cs
  if ds ≠ [] ∧ ds.all Char.isDigit then some (sg * digitsVal ds) else none

/-- Python `int(float(s))` for an already-stripped string containing a dot:
an optional sign, a digit run, a dot, and a digit run (at least one digit in
total); `int` truncates toward zero, so the result is the signed integer
part.  (Exponent notation, which CPython `float` also accepts, is not
modelled; no value in this development uses it.) -/
def pyParseFloatInt (cs : List Char) : Option Int :=
  let (sg, body) := splitSign cs
  match body.splitOn '.' with
  | [a, b] =>
      if a.all Char.isDigit ∧ b.all Char.isDigit ∧ (a ≠ [] ∨ b ≠ []) then
        some (sg * digitsVal a)
      else none
  | _ => none

/-- Python `str(n)` for an integer, as a character list. -/
def pyStrOfInt (n : Int) : List Char :=
  if n < 0 then '-' :: Nat.toDigits 10 n.natAbs else Nat.toDigits 10 n.natAbs

/-- Python `str(v)` for the embedded value forms, as a character list. -/
def pyStrChars : PyVal → List Char
  | .none => 'N' :: 'o' :: 'n' :: 'e' :: []
  | .int n => pyStrOfInt n
  | .str s => s.data

/-- `to_int` from `src/manganotify/core/utils.py`:
`None` maps to `None`; otherwise the value is stringified and stripped; the
empty string maps to `None`; a string containing `.` is parsed as
`int(float(s))`, any other as `int(s)`; any parse failure maps to `None`. -/
def to_int (v : PyVal) : Option Int :=
  match v with
  | .none => Option.none
  | _ =>
      let cs := pyStrip (pyStrChars v)
      if cs = [] then Option.none
      else if cs.contains '.' then pyParseFloatInt cs
      else pyParseInt cs

/-- Python truthiness of an optional string: `None` and `""` are falsy. -/
def truthyS : Option String → Bool
  | Option.none => false
  | some s => s ≠ ""

/-- Python `a or b` on optional strings (first operand if truthy, otherwise
the second operand as-is). -/
def pyOrStr (a b : Option String) : Option String :=
  if truthyS a then a else b

/-- Python truthiness of an optional integer id: `None` and `0` are falsy. -/
def truthyId : Option Int → Bool
  | Option.none => false
  | some n => n != 0

/-- The `notifications` preference dict stored on a watchlist item.  Every
field may be absent; the reading code supplies the default `True`. -/
structure NotifPrefs where
  enabled : Option Bool
  only_when_reading : Option Bool
  pushover : Option Bool
  discord : Option Bool
  deriving DecidableEq, Repr

/-- The `cover` dict of an upstream series record, as read by `pick_cover`
in `src/manganotify/services/watchlist.py`. -/
structure Cover where
  small : Option String
  dflt : Option String
  raw : Option String
  deriving DecidableEq, Repr

/-- Per-source `last_updated_at` timestamps of an upstream record, as read
by `derive_last_chapter_at` (field order matches the key tuple iterated
there). -/
structure Source where
  anilist : Option String
  my_anime_list : Option String
  anime_news_network : Option String
  manga_updates : Option String
  kitsu : Option String
  shikimori : Option String
  mangadex : Option String
  deriving DecidableEq, Repr

/-- The fields of an upstream series record that `process_once` reads (after
the `data.get("data") or data` envelope unwrap, which the fetch environment
performs). -/
structure Series where
  title : Option String
  total_chapters : PyVal
  state : Option String
  merged_with : Option Int
  cover : Option Cover
  last_updated_at : Option String
  source : Option Source
  deriving DecidableEq, Repr

/-- The fields of a watchlist item dict that `process_once` and
`_should_send_notification` read or write. -/
structure Item where
  id : Option Int
  title : Option String
  total_chapters : PyVal
  last_read : PyVal
  status : Option String
  notifications : Option NotifPrefs
  cover : Option String
  last_chapter_at : Option String
  last_checked : Option String
  deriving DecidableEq, Repr

/-- `pick_cover` from `src/manganotify/services/watchlist.py`:
`(series.get("cover") or \x7b\x7d)` then
`cov.get("small") or cov.get("default") or cov.get("raw")`. -/
def pick_cover (s : Series) : Option String :=
  let cov := s.cover.getD ⟨Option.none, Option.none, Option.none⟩
  pyOrStr cov.small (pyOrStr cov.dflt cov.raw)

/-- `derive_last_chapter_at` from `src/manganotify/services/watchlist.py`:
the record's own truthy `last_updated_at`, else the first truthy per-source
`last_updated_at` in the fixed key order, else `None`. -/
def derive_last_chapter_at (s : Series) : Option String :=
  if truthyS s.last_updated_at then s.last_updated_at
  else
    let src := s.source.getD ⟨Option.none, Option.none, Option.none, Option.none,
      Option.none, Option.none, Option.none⟩
    [src.anilist, src.my_anime_list, src.anime_news_network, src.manga_updates,
     src.kitsu, src.shikimori, src.mangadex].foldr
      (fun ts acc => if truthyS ts then ts else acc) Option.none

/-- `_should_send_notification` from `src/manganotify/services/poller.py`:
returns `false` when `notifications.enabled` is `false` (default `true`);
else, when `notifications.only_when_reading` is `true` (default `true`),
returns whether `status` (default `"reading"`) is `"reading"` or
`"releasing"`; else returns `true`. -/
def _should_send_notification (it : Item) : Bool :=
  let prefs := it.notifications.getD ⟨Option.none, Option.none, Option.none, Option.none⟩
  if !(prefs.enabled.getD true) then false
  else if prefs.only_when_reading.getD true then
    let st := it.status.getD "reading"
    if !(st == "reading" || st == "releasing") then false
    else true
  else true

/-- Outcome of one notification channel `send`, as the poller reads it:
the `ok` flag, the HTTP `status` when a post completed, and the `reason`
diagnostic when one was produced. -/
structure SendOutcome where
  ok : Bool
  status : Option Nat
  reason : Option String
  deriving DecidableEq, Repr

/-- Behaviour of one outbound HTTP post (`client.post`): either the request
raises (network error / timeout), or it completes with an HTTP status code
and, for pushover, the `status` field of the decoded JSON body (`none` when
the body does not decode or lacks the field). -/
inductive PostOutcome
  | raises (msg : String)
  | completes (status : Nat) (jsStatus : Option Int)
  deriving DecidableEq, Repr

/-- Environment of `pushover`: the decrypted credentials and what the post
would do. -/
structure PushoverEnv where
  app_token : Option String
  user_key : Option String
  post : PostOutcome
  deriving DecidableEq, Repr

/-- Environment of `discord_notify`: the enabled flag, the decrypted webhook
URL and what the post would do. -/
structure DiscordEnv where
  enabled : Bool
  webhook_url : Option String
  post : PostOutcome
  deriving DecidableEq, Repr

/-- `pushover` from `src/manganotify/services/notifications.py`.  With falsy
credentials it returns `ok: false` with a reason.  Otherwise it posts; the
post is NOT wrapped in a try/except, so a raising post propagates
(`Except.error`).  Only the JSON decode of the response body is guarded
(a decode failure leaves `js` empty).  On a completed post it returns
`ok := status == 200 and js.get("status") == 1`. -/
def pushover (env : PushoverEnv) : Except String SendOutcome :=
  if !(truthyS env.app_token && truthyS env.user_key) then
    .ok ⟨false, Option.none, some "Missing PUSHOVER_* envs"⟩
  else
    match env.post with
    | .raises m => .error m
    | .completes st js => .ok ⟨st == 200 && js == some 1, some st, Option.none⟩

/-- `discord_notify` from `src/manganotify/services/notifications.py`.  With
the feature disabled or a falsy webhook URL it returns `ok: false` with a
reason.  Otherwise it posts inside a try/except: a raising post is caught
and returned as `ok: false` with the exception text; a completed post
returns `ok := status in (200, 204)`. -/
def discord_notify (env : DiscordEnv) : Except String SendOutcome :=
  if !(env.enabled && truthyS env.webhook_url) then
    .ok ⟨false, Option.none, some "Discord notifications not enabled or webhook missing"⟩
  else
    match env.post with
    | .raises m => .ok ⟨false, Option.none, some m⟩
    | .completes st _ => .ok ⟨st == 200 || st == 204, some st, Option.none⟩

/-- The ASCII apostrophe, used in the notification message text. -/
def apoChar : Char := Char.ofNat 39

/-- The human-readable message composed in `process_once`:
`"<title> now has <new_total> chapters."`, with
`" You_re <unread> behind."` appended when `unread > 0` (the underscore
stands for the apostrophe `apoChar`). -/
def mkMessage (title : String) (nt unread : Int) : String :=
  let base := title ++ " now has " ++ String.mk (pyStrOfInt nt) ++ " chapters."
  if unread > 0 then
    base ++ " You" ++ String.singleton apoChar ++ "re " ++
      String.mk (pyStrOfInt unread) ++ " behind."
  else base

/-- The payload of one `add_notification("chapter_update", ...)` call made by
`process_once` (the store-assigned `id` and `detected_at` fields are added at
write time and are not part of this record). -/
structure Event where
  series_id : Option Int
  title : Option String
  old_total : Int
  new_total : Int
  unread : Int
  message : String
  push_ok : Bool
  discord_ok : Bool
  notifications_enabled : Bool
  deriving DecidableEq, Repr

/-- Result of one `api_series_by_id` call: the (envelope-unwrapped) series
record, or a raised exception (timeout, HTTP error, invalid id, ...). -/
inductive FetchResult
  | ok (s : Series)
  | exc
  deriving Repr

/-- Environment of one item's processing inside `process_once`: the upstream
client (call number within this item's processing maps to its result), the
two channel environments, and the current `now_utc_iso()` timestamp. -/
structure ItemEnv where
  fetch : Nat → FetchResult
  push : PushoverEnv
  disc : DiscordEnv
  now : String

/-- The retry loop of `process_once` (`while attempts < 3`), structured on
the remaining attempt budget (`remaining = 3 - attempts`).  `calls` counts
`api_series_by_id` invocations so far; inside the loop every earlier call
failed, so `attempts = calls` and the `asyncio.sleep(0.5 * attempts)` after
a failure (which follows `attempts += 1`) sleeps `0.5 * (calls + 1)`.
Returns the fetched series (or `none` when the budget is exhausted), the
total number of calls, and the accumulated sleeps. -/
def retry_fetch (fetch : Nat → FetchResult) :
    Nat → Nat → List ℚ → Option Series × Nat × List ℚ
  | 0, calls, sleeps => (Option.none, calls, sleeps)
  | remaining + 1, calls, sleeps =>
      match fetch calls with
      | .ok s => (some s, calls + 1, sleeps)
      | .exc =>
          retry_fetch fetch remaining (calls + 1)
            (sleeps ++ [(1/2 : ℚ) * ((calls : ℚ) + 1)])

/-- The unconditional per-item state refresh at the end of the `process_once`
loop body: `title` (`series.get("title") or it.get("title")`),
`total_chapters` (only when `new_total` is known), `cover` (only when
`pick_cover` is truthy), `last_chapter_at` (always), `last_checked`
(always, from the clock). -/
def state_update (now : String) (series : Series) (new_total : Option Int)
    (it : Item) : Item :=
  { it with
    title := pyOrStr series.title it.title
    total_chapters := match new_total with
      | some n => .int n
      | Option.none => it.total_chapters
    cover := if truthyS (pick_cover series) then pick_cover series else it.cover
    last_chapter_at := derive_last_chapter_at series
    last_checked := some now }

/-- Observable outcome of processing one watchlist item: the item as it
stands in the list afterwards, the `add_notification` events recorded, the
number of `api_series_by_id` calls, the sleeps performed, and whether each
channel send was invoked. -/
structure ItemOutcome where
  item : Item
  events : List Event
  fetchCalls : Nat
  sleeps : List ℚ
  pushoverInvoked : Bool
  discordInvoked : Bool
  deriving Repr

/-- The body of the `process_once` loop after a successful (and
merge-resolved) fetch: diff, policy check, dispatch, record, state update.
A raising `pushover` call propagates to the per-item `except` handler, so in
that case no event is recorded and the state update is skipped (the item
keeps the fields it had at that point). -/
def processBody (env : ItemEnv) (it : Item) (series : Series) (calls : Nat)
    (sleeps : List ℚ) : ItemOutcome :=
  let new_total := to_int series.total_chapters
  let old_total := to_int it.total_chapters
  let last_read := (to_int it.last_read).getD 0
  let updated := fun (evs : List Event) (pInv dInv : Bool) =>
    (⟨state_update env.now series new_total it, evs, calls, sleeps, pInv, dInv⟩ : ItemOutcome)
  match new_total, old_total with
  | some nt, some ot =>
      if nt > ot then
        let unread := max (nt - last_read) 0
        let msg := mkMessage (it.title.getD "(unknown)") nt unread
        if _should_send_notification it then
          let prefs := it.notifications.getD ⟨Option.none, Option.none, Option.none, Option.none⟩
          let pushover_enabled := prefs.pushover.getD true
          let discord_enabled := prefs.discord.getD true
          match (if pushover_enabled then (pushover env.push).map some
                 else .ok Option.none : Except String (Option SendOutcome)) with
          | .error _ => ⟨it, [], calls, sleeps, true, false⟩
          | .ok pr =>
              let dr : Option SendOutcome :=
                if discord_enabled then
                  match discord_notify env.disc with
                  | .ok r => some r
                  | .error _ => Option.none
                else Option.none
              let push_ok := match pr with | some r => r.ok | Option.none => false
              let discord_ok := match dr with | some r => r.ok | Option.none => false
              updated [⟨it.id, it.title, ot, nt, unread, msg, push_ok, discord_ok, true⟩]
                pushover_enabled discord_enabled
        else
          updated [⟨it.id, it.title, ot, nt, unread, msg, false, false, false⟩]
            false false
      else updated [] false false
  | _, _ => updated [] false false

/-- One iteration of the `process_once` loop for one item: skip falsy ids,
fetch with bounded retry (a fully failed retry skips the item, state
untouched), resolve a merge redirect (mutating `it["id"]` in memory BEFORE
the follow-up fetch, so a failing follow-up leaves the mutated id in place
and skips the rest), then run the loop body. -/
def processItem (env : ItemEnv) (it : Item) : ItemOutcome :=
  if !(truthyId it.id) then ⟨it, [], 0, [], false, false⟩
  else
    match retry_fetch env.fetch 3 0 [] with
    | (Option.none, calls, sleeps) => ⟨it, [], calls, sleeps, false, false⟩
    | (some s0, calls0, sleeps) =>
        if (s0.state == some "merged") && truthyId s0.merged_with then
          let it1 := { it with id := s0.merged_with }
          match env.fetch calls0 with
          | .exc => ⟨it1, [], calls0 + 1, sleeps, false, false⟩
          | .ok s1 => processBody env it1 s1 (calls0 + 1) sleeps
        else processBody env it s0 calls0 sleeps

/-- Environment of a whole pass: each watchlist position gets its own item
environment. -/
def PassEnv : Type := Nat → ItemEnv

/-- Sequential processing of the watchlist items (position `i` onward),
collecting the updated items and the recorded events in order. -/
def processList (penv : PassEnv) : Nat → List Item → List Item × List Event
  | _, [] => ([], [])
  | i, it :: rest =>
      let o := processItem (penv i) it
      let r := processList penv (i + 1) rest
      (o.item :: r.1, o.events ++ r.2)

/-- `process_once` from `src/manganotify/services/poller.py`: one pass over
the watchlist.  Returns the list passed to the single batch
`save_watchlist` (the persisted watchlist), the recorded events, and the
`checked` summary count (`len(wl)`). -/
def process_once (penv : PassEnv) (wl : List Item) : List Item × List Event × Nat :=
  let r := processList penv 0 wl
  (r.1, r.2, wl.length)

/-- Python `int(x)` coercion as applied to a stored notification `id` value:
an `int` is itself, a `str` must parse as a (strippable, dot-free) integer,
`None` raises. -/
def pyIntCoerce : PyVal → Option Int
  | .int n => some n
  | .str s => pyParseInt (pyStrip s.data)
  | .none => Option.none

/-- `int(x)` coercion over a whole id list; `none` when any element raises
(which makes the surrounding `max(...)` generator raise). -/
def coerceIds : List PyVal → Option (List Int)
  | [] => some []
  | v :: vs =>
      match pyIntCoerce v, coerceIds vs with
      | some n, some ns => some (n :: ns)
      | _, _ => Option.none

/-- `next_notification_id` from `src/manganotify/services/notifications.py`:
`max((int(x.get("id", 0)) for x in items), default=0) + 1`, with any raised
exception (a non-coercible id) giving `1`.  The input is the list of
`x.get("id", 0)` values (a record without an `id` key contributes
`.int 0`). -/
def next_notification_id (ids : List PyVal) : Int :=
  match coerceIds ids with
  | some [] => 0 + 1
  | some (x :: xs) => xs.foldl max x + 1
  | Option.none => 1

/-- `add_notification` (id assignment only): the new record, carrying
`next_notification_id` of the existing records, is inserted at the front of
the store. -/
def add_notification (ids : List PyVal) : List PyVal :=
  .int (next_notification_id ids) :: ids

/-- `sleep_for = max(1.0, base_interval + jitter)` with
`jitter = u * base_interval`, where `u` is the `random.uniform(-0.1, 0.1)`
draw of this iteration. -/
def poll_sleep (base : ℚ) (u : ℚ) : ℚ := max 1 (base + u * base)

/-- The `while True` body of `poll_loop`, iteration `i` onward, with the
cancellation request arriving during the sleep `rem` iterations later:
each iteration runs one pass and then sleeps `poll_sleep`; the sleep during
which `CancelledError` fires breaks the loop.  Returns the number of passes
run and every requested sleep duration (the last being the cancelled one). -/
def poll_iter (base : ℚ) (u : Nat → ℚ) (i : Nat) : Nat → Nat × List ℚ
  | 0 => (1, [poll_sleep base (u i)])
  | rem + 1 =>
      let r := poll_iter base u (i + 1) rem
      (r.1 + 1, poll_sleep base (u i) :: r.2)

/-- `poll_loop` from `src/manganotify/services/poller.py`: with
`POLL_INTERVAL_SEC <= 0` it returns before the loop, running no pass at
all; otherwise it loops, cancelled during the sleep of iteration
`cancelAt`. -/
def poll_loop (base_interval : Int) (u : Nat → ℚ) (cancelAt : Nat) : Nat × List ℚ :=
  if base_interval ≤ 0 then (0, [])
  else poll_iter (base_interval : ℚ) u 0 cancelAt

/-- State of the persisted watchlist file: absent, present but not valid
JSON, or present with a stored item list. -/
inductive StoreState
  | absent
  | corrupt
  | stored (wl : List Item)

/-- `load_json` from `src/manganotify/storage/json_store.py`: a missing file
or a `json.loads` failure yields the supplied default. -/
def load_json (st : StoreState) (dflt : List Item) : List Item :=
  match st with
  | .absent => dflt
  | .corrupt => dflt
  | .stored wl => wl

/-- `load_watchlist` from `src/manganotify/services/watchlist.py`:
`load_json(watchlist_path, [])`. -/
def load_watchlist (st : StoreState) : List Item := load_json st []

def tItem : Item :=
  { id := some 270, title := some "A", total_chapters := .int 699,
    last_read := .int 699, status := some "reading",
    notifications := Option.none, cover := Option.none,
    last_chapter_at := Option.none, last_checked := Option.none }

def tSeries : Series :=
  { title := some "A", total_chapters := .int 700, state := Option.none,
    merged_with := Option.none, cover := Option.none,
    last_updated_at := Option.none, source := Option.none }

def tEnv : ItemEnv :=
  { fetch := fun _ => .ok tSeries,
    push := ⟨some "t", some "u", .completes 200 (some 1)⟩,
    disc := ⟨false, Option.none, .completes 204 Option.none⟩,
    now := "T1" }

example : (processItem tEnv tItem).events.length = 1 := by decide
example : (processItem tEnv tItem).item.total_chapters = .int 700 := by decide
example : (processItem tEnv tItem).events =
    [⟨some 270, some "A", 699, 700, 1, mkMessage "A" 700 1, true, false, true⟩] := by decide
example : (processItem tEnv tItem).fetchCalls = 1 := by decide
example : (processItem tEnv tItem).pushoverInvoked = true := by decide
example : (processItem tEnv tItem).item.last_checked = some "T1" := by decide

example : to_int (.int 10) = some 10 := by decide

/-! ## General lemmas about the engine -/

theorem retry_fetch_ok (f : Nat → FetchResult) (r calls : Nat) (ss : List ℚ)
    (s : Series) (h : f calls = .ok s) :
    retry_fetch f (r + 1) calls ss = (some s, calls + 1, ss) := by
  simp [retry_fetch, h]

theorem retry_fetch_exc (f : Nat → FetchResult) (r calls : Nat) (ss : List ℚ)
    (h : f calls = .exc) :
    retry_fetch f (r + 1) calls ss =
      retry_fetch f r (calls + 1) (ss ++ [(1/2 : ℚ) * ((calls : ℚ) + 1)]) := by
  simp [retry_fetch, h]

/-- When the first fetch succeeds and the record does not signal a merge,
processing an item is the loop body on that record after one call. -/
theorem processItem_first_ok (env : ItemEnv) (it : Item) (s : Series)
    (hid : truthyId it.id = true)
    (hf : env.fetch 0 = .ok s)
    (hm : ((s.state == some "merged") && truthyId s.merged_with) = false) :
    processItem env it = processBody env it s 1 [] := by
  unfold processItem
  rw [show (3 : Nat) = 2 + 1 from rfl, retry_fetch_ok env.fetch 2 0 [] s hf]
  simp [hid, hm]

/-! ## Claim C1 -/

def c1item : Item :=
  { id := some 1, title := some "A", total_chapters := .int 10,
    last_read := .int 0, status := some "reading",
    notifications := some ⟨some true, some false, some false, some false⟩,
    cover := Option.none, last_chapter_at := Option.none, last_checked := Option.none }

def c1series : Series :=
  { title := some "A", total_chapters := .int 5, state := Option.none,
    merged_with := Option.none, cover := Option.none,
    last_updated_at := Option.none, source := Option.none }

def c1env : ItemEnv :=
  { fetch := fun _ => .ok c1series,
    push := ⟨Option.none, Option.none, .completes 200 (some 1)⟩,
    disc := ⟨false, Option.none, .completes 204 Option.none⟩,
    now := "T1" }

/-- C1: the claim is false on the code.  The stored `total_chapters` is 10
(a known value from a prior observation); the upstream fetch succeeds with
the known, strictly smaller value 5; yet after the pass the stored value is
5, not 10 — `process_once` assigns `it["total_chapters"] = new_total`
whenever `new_total` is known, without comparing it to the stored value, so
the stored count does move backward. -/
theorem C1_counterexample :
    to_int c1item.total_chapters = some 10 ∧
    to_int c1series.total_chapters = some 5 ∧
    (processItem c1env c1item).item.total_chapters ≠ c1item.total_chapters ∧
    (processItem c1env c1item).item.total_chapters = .int 5 := by decide

/-- C1 (amended): a pass whose fetch succeeds with a known value strictly
smaller than the stored known value OVERWRITES the stored
`total_chapters` with the smaller value — the stored count is not monotonic
— while still producing no notification event for that pass. -/
theorem C1_amended (env : ItemEnv) (it : Item) (s : Series) (nt ot : Int)
    (hid : truthyId it.id = true)
    (hf : env.fetch 0 = .ok s)
    (hm : ((s.state == some "merged") && truthyId s.merged_with) = false)
    (hnt : to_int s.total_chapters = some nt)
    (hot : to_int it.total_chapters = some ot)
    (hlt : nt < ot) :
    (processItem env it).item.total_chapters = .int nt ∧
    (processItem env it).events = [] := by
  rw [processItem_first_ok env it s hid hf hm]
  unfold processBody
  rw [hnt, hot]
  have hngt : ¬ (nt > ot) := by omega
  simp [hngt, state_update, hnt]

/-- C1 (amended) at a concrete input. -/
theorem C1_amended_witness :
    (processItem c1env c1item).item.total_chapters = .int 5 ∧
    (processItem c1env c1item).events = [] :=
  C1_amended c1env c1item c1series 5 10 (by decide) rfl (by decide)
    (by decide) (by decide) (by decide)

/-! ## Claim C2 -/

def c2item : Item :=
  { id := some 1, title := some "B", total_chapters := .int 8,
    last_read := .int 0, status := some "reading",
    notifications := Option.none, cover := Option.none,
    last_chapter_at := Option.none, last_checked := Option.none }

def c2series : Series :=
  { title := some "B", total_chapters := .int 8, state := some "merged",
    merged_with := some 555, cover := Option.none,
    last_updated_at := Option.none, source := Option.none }

def c2env : ItemEnv :=
  { fetch := fun n => if n == 0 then .ok c2series else .exc,
    push := ⟨Option.none, Option.none, .completes 200 (some 1)⟩,
    disc := ⟨false, Option.none, .completes 204 Option.none⟩,
    now := "T2" }

def c2penv : PassEnv := fun _ => c2env

/-- C2: the claim is false on the code.  The item's stored id is 1; the
first fetch reports a merge to 555; the follow-up fetch by the target id
fails.  `process_once` has already mutated `it["id"] = 555` before that
fetch, the per-item exception handler does not roll the mutation back, and
the final batch `save_watchlist(wl)` persists it — so the persisted id is
the merge target 555, not the original 1. -/
theorem C2_counterexample :
    c2item.id = some 1 ∧
    (process_once c2penv [c2item]).1.map Item.id = [some 555] ∧
    (555 : Int) ≠ 1 := by decide

/-- C2 (amended): when the follow-up fetch after a merge redirect fails, the
item is skipped for the rest of the pass (no event, no further field
refresh), but the in-memory id change is RETAINED and is persisted by the
final batch save: the persisted item equals the original with only its id
replaced by the merge target. -/
theorem C2_amended (penv : PassEnv) (it : Item) (s : Series)
    (hid : truthyId it.id = true)
    (hf0 : (penv 0).fetch 0 = .ok s)
    (hm : ((s.state == some "merged") && truthyId s.merged_with) = true)
    (hf1 : (penv 0).fetch 1 = .exc) :
    (process_once penv [it]).1 = [{ it with id := s.merged_with }] ∧
    (process_once penv [it]).2.1 = [] := by
  have hpi : processItem (penv 0) it =
      ⟨{ it with id := s.merged_with }, [], 2, [], false, false⟩ := by
    unfold processItem
    rw [show (3 : Nat) = 2 + 1 from rfl,
      retry_fetch_ok (penv 0).fetch 2 0 [] s hf0]
    simp [hid, hm, hf1]
  simp [process_once, processList, hpi]

/-- C2 (amended) at a concrete input. -/
theorem C2_amended_witness :
    (process_once c2penv [c2item]).1 = [{ c2item with id := c2series.merged_with }] ∧
    (process_once c2penv [c2item]).2.1 = [] :=
  C2_amended c2penv c2item c2series (by decide) rfl (by decide) rfl

/-! ## Claim C3 -/

/-- When `pushover` does not raise, the loop body records an event iff both
totals are known to `to_int` and the new one is strictly larger. -/
theorem processBody_events (env : ItemEnv) (it : Item) (s : Series)
    (calls : Nat) (sleeps : List ℚ)
    (hp : ∃ r, pushover env.push = .ok r) :
    ((processBody env it s calls sleeps).events ≠ [] ↔
      ∃ nt ot, to_int s.total_chapters = some nt ∧
        to_int it.total_chapters = some ot ∧ ot < nt) := by
  obtain ⟨r, hr⟩ := hp
  unfold processBody
  rcases hnt : to_int s.total_chapters with _ | nt
  · simp [hnt]
  rcases hot : to_int it.total_chapters with _ | ot
  · simp [hnt, hot]
  by_cases hgt : nt > ot
  · by_cases hsn : _should_send_notification it
    · by_cases hpe : ((it.notifications.getD
          ⟨Option.none, Option.none, Option.none, Option.none⟩).pushover.getD true)
      · simp [hnt, hot, hgt, hsn, hpe, hr, Except.map]
      · simp [hnt, hot, hgt, hsn, hpe]
    · simp [hnt, hot, hgt, hsn]
  · simp [hnt, hot, hgt]

def c3item : Item :=
  { id := some 1, title := some "C", total_chapters := .str "-1",
    last_read := .int 0, status := some "reading",
    notifications := some ⟨some true, some false, some false, some false⟩,
    cover := Option.none, last_chapter_at := Option.none, last_checked := Option.none }

def c3series : Series :=
  { title := some "C", total_chapters := .str "0", state := Option.none,
    merged_with := Option.none, cover := Option.none,
    last_updated_at := Option.none, source := Option.none }

def c3env : ItemEnv :=
  { fetch := fun _ => .ok c3series,
    push := ⟨Option.none, Option.none, .completes 200 (some 1)⟩,
    disc := ⟨false, Option.none, .completes 204 Option.none⟩,
    now := "T3" }

/-- C3: the claim is false on the code.  The stored total is the string
`"-1"`, which does not parse as a NON-NEGATIVE integer, so under the claim
it should be treated as unknown and produce no event; but `to_int` parses
it as the known integer -1, and with the fetched total `"0"` (known 0,
`0 > -1`) the code records an event. -/
theorem C3_counterexample :
    to_int c3item.total_chapters = some (-1) ∧ (-1 : Int) < 0 ∧
    (processItem c3env c3item).events.length = 1 := by decide

/-- C3 (amended): provided the pushover dispatch does not raise (see C4/C5),
a notification-worthy event is produced iff both the stored old total and
the fetched new total parse as known (non-null) integers — possibly
negative — with `new_total > old_total`; equal or decreasing values produce
no event, and a value `to_int` cannot parse as an integer is treated as
unknown, not as zero. -/
theorem C3_amended (env : ItemEnv) (it : Item) (s : Series)
    (hid : truthyId it.id = true)
    (hf : env.fetch 0 = .ok s)
    (hm : ((s.state == some "merged") && truthyId s.merged_with) = false)
    (hp : ∃ r, pushover env.push = .ok r) :
    ((processItem env it).events ≠ [] ↔
      ∃ nt ot, to_int s.total_chapters = some nt ∧
        to_int it.total_chapters = some ot ∧ ot < nt) := by
  rw [processItem_first_ok env it s hid hf hm]
  exact processBody_events env it s 1 [] hp

/-- C3 (amended) at a concrete input. -/
theorem C3_amended_witness : (processItem tEnv tItem).events ≠ [] :=
  (C3_amended tEnv tItem tSeries (by decide) rfl (by decide)
    ⟨⟨true, some 200, Option.none⟩, rfl⟩).mpr
    ⟨700, 699, by decide, by decide, by decide⟩

/-! ## Claim C4 -/

def c4item : Item :=
  { id := some 1, title := some "D", total_chapters := .int 10,
    last_read := .int 0, status := some "reading",
    notifications := Option.none, cover := Option.none,
    last_chapter_at := Option.none, last_checked := Option.none }

def c4series : Series :=
  { title := some "D", total_chapters := .int 11, state := Option.none,
    merged_with := Option.none, cover := Option.none,
    last_updated_at := Option.none, source := Option.none }

def c4env : ItemEnv :=
  { fetch := fun _ => .ok c4series,
    push := ⟨some "tok", some "usr", .raises "connection reset"⟩,
    disc := ⟨false, Option.none, .completes 204 Option.none⟩,
    now := "T4" }

/-- C4: the claim is false on the code.  Progress is detected (10 → 11) and
the policy approves, so the pushover channel is invoked; its HTTP post
raises (it is not wrapped in try/except), the exception propagates to the
per-item handler, and NO history event is recorded for the item in this
pass — not "exactly one". -/
theorem C4_counterexample :
    to_int c4item.total_chapters = some 10 ∧
    to_int c4series.total_chapters = some 11 ∧
    _should_send_notification c4item = true ∧
    (processItem c4env c4item).pushoverInvoked = true ∧
    (processItem c4env c4item).events = [] := by decide

/-- C4 (amended): in a pass in which progress is detected, PROVIDED the
invoked channel dispatch does not raise (the policy suppressed dispatch, or
the pushover call returned normally), exactly one history event is recorded
for the item; its notifications-enabled flag equals the policy decision, and
when the policy decision is false no channel is invoked and both per-channel
outcome flags in the record are false. -/
theorem C4_amended (env : ItemEnv) (it : Item) (s : Series) (nt ot : Int)
    (hid : truthyId it.id = true)
    (hf : env.fetch 0 = .ok s)
    (hm : ((s.state == some "merged") && truthyId s.merged_with) = false)
    (hnt : to_int s.total_chapters = some nt)
    (hot : to_int it.total_chapters = some ot)
    (hgt : ot < nt)
    (hp : _should_send_notification it = false ∨ ∃ r, pushover env.push = .ok r) :
    (processItem env it).events.length = 1 ∧
    ∀ ev ∈ (processItem env it).events,
      ev.notifications_enabled = _should_send_notification it ∧
      (_should_send_notification it = false →
        (processItem env it).pushoverInvoked = false ∧
        (processItem env it).discordInvoked = false ∧
        ev.push_ok = false ∧ ev.discord_ok = false) := by
  rw [processItem_first_ok env it s hid hf hm]
  unfold processBody
  by_cases hsn : _should_send_notification it
  · rcases hp with hp | ⟨r, hr⟩
    · rw [hsn] at hp; cases hp
    · by_cases hpe : ((it.notifications.getD
          ⟨Option.none, Option.none, Option.none, Option.none⟩).pushover.getD true)
      · simp [hnt, hot, hgt, hsn, hpe, hr, Except.map]
      · simp [hnt, hot, hgt, hsn, hpe]
  · simp [hnt, hot, hgt, hsn]

def c4witem : Item :=
  { id := some 1, title := some "D2", total_chapters := .int 10,
    last_read := .int 0, status := some "reading",
    notifications := some ⟨some false, Option.none, Option.none, Option.none⟩,
    cover := Option.none, last_chapter_at := Option.none, last_checked := Option.none }

/-- C4 (amended) at a concrete input (policy decision false: notifications
disabled for the item). -/
theorem C4_amended_witness :
    (processItem c4env c4witem).events.length = 1 ∧
    ∀ ev ∈ (processItem c4env c4witem).events,
      ev.notifications_enabled = _should_send_notification c4witem ∧
      (_should_send_notification c4witem = false →
        (processItem c4env c4witem).pushoverInvoked = false ∧
        (processItem c4env c4witem).discordInvoked = false ∧
        ev.push_ok = false ∧ ev.discord_ok = false) :=
  C4_amended c4env c4witem c4series 11 10 (by decide) rfl (by decide)
    (by decide) (by decide) (by decide) (Or.inl (by decide))

/-! ## Claim C5 -/

/-- C5: the claim is false on the code for the pushover channel.  With
credentials configured, a network error during the HTTP post (which is not
wrapped in try/except in `pushover`) propagates as an exception instead of
being reported as an `ok: false` result. -/
theorem C5_counterexample :
    pushover ⟨some "tok", some "usr", .raises "connection reset"⟩ =
      .error "connection reset" := rfl

/-- C5 (amended): the discord channel never raises for ordinary delivery
failure (disabled/unconfigured webhook and a raising post both yield a
normal `ok: false` result with a diagnostic); the pushover channel never
raises for unconfigured credentials (it returns `ok: false` with a
diagnostic), but a network error during its HTTP post propagates as an
exception. -/
theorem C5_amended (denv : DiscordEnv) (penv : PushoverEnv)
    (hc : truthyS penv.app_token = false ∨ truthyS penv.user_key = false) :
    (∃ r, discord_notify denv = .ok r ∧ (r.ok = false → r.reason ≠ Option.none ∨ r.status ≠ Option.none)) ∧
    pushover penv = .ok ⟨false, Option.none, some "Missing PUSHOVER_* envs"⟩ := by
  constructor
  · unfold discord_notify
    by_cases he : (denv.enabled && truthyS denv.webhook_url)
    · rcases hpost : denv.post with m | ⟨st, js⟩
      · exact ⟨⟨false, Option.none, some m⟩, by simp [he, hpost], by simp⟩
      · exact ⟨⟨st == 200 || st == 204, some st, Option.none⟩,
          by simp [he, hpost], by simp⟩
    · exact ⟨⟨false, Option.none,
        some "Discord notifications not enabled or webhook missing"⟩,
        by simp [he], by simp⟩
  · unfold pushover
    rcases hc with hc | hc <;> simp [hc]

/-- C5 (amended) at a concrete input (unconfigured pushover credentials and
a discord post that raises). -/
theorem C5_amended_witness :
    (∃ r, discord_notify ⟨true, some "https://w", .raises "timeout"⟩ = .ok r ∧
      (r.ok = false → r.reason ≠ Option.none ∨ r.status ≠ Option.none)) ∧
    pushover ⟨Option.none, some "usr", .completes 200 (some 1)⟩ =
      .ok ⟨false, Option.none, some "Missing PUSHOVER_* envs"⟩ :=
  C5_amended ⟨true, some "https://w", .raises "timeout"⟩
    ⟨Option.none, some "usr", .completes 200 (some 1)⟩ (Or.inl (by decide))

/-! ## Claim C6 -/

/-- The loop body never changes the number of fetch calls made. -/
theorem processBody_fetchCalls (env : ItemEnv) (it : Item) (s : Series)
    (calls : Nat) (sleeps : List ℚ) :
    (processBody env it s calls sleeps).fetchCalls = calls := by
  unfold processBody
  rcases hnt : to_int s.total_chapters with _ | nt
  · simp [hnt]
  rcases hot : to_int it.total_chapters with _ | ot
  · simp [hnt, hot]
  by_cases hgt : nt > ot
  · by_cases hsn : _should_send_notification it
    · by_cases hpe : ((it.notifications.getD
          ⟨Option.none, Option.none, Option.none, Option.none⟩).pushover.getD true)
      · rcases hr : pushover env.push with m | r
        · simp [hnt, hot, hgt, hsn, hpe, hr, Except.map]
        · simp [hnt, hot, hgt, hsn, hpe, hr, Except.map]
      · simp [hnt, hot, hgt, hsn, hpe]
    · simp [hnt, hot, hgt, hsn]
  · simp [hnt, hot, hgt]

/-- The loop body never changes the sleeps performed. -/
theorem processBody_sleeps (env : ItemEnv) (it : Item) (s : Series)
    (calls : Nat) (sleeps : List ℚ) :
    (processBody env it s calls sleeps).sleeps = sleeps := by
  unfold processBody
  rcases hnt : to_int s.total_chapters with _ | nt
  · simp [hnt]
  rcases hot : to_int it.total_chapters with _ | ot
  · simp [hnt, hot]
  by_cases hgt : nt > ot
  · by_cases hsn : _should_send_notification it
    · by_cases hpe : ((it.notifications.getD
          ⟨Option.none, Option.none, Option.none, Option.none⟩).pushover.getD true)
      · rcases hr : pushover env.push with m | r
        · simp [hnt, hot, hgt, hsn, hpe, hr, Except.map]
        · simp [hnt, hot, hgt, hsn, hpe, hr, Except.map]
      · simp [hnt, hot, hgt, hsn, hpe]
    · simp [hnt, hot, hgt, hsn]
  · simp [hnt, hot, hgt]

/-- When `pushover` does not raise, the loop body leaves the item exactly as
the unconditional state refresh prescribes. -/
theorem processBody_item (env : ItemEnv) (it : Item) (s : Series)
    (calls : Nat) (sleeps : List ℚ)
    (hp : ∃ r, pushover env.push = .ok r) :
    (processBody env it s calls sleeps).item =
      state_update env.now s (to_int s.total_chapters) it := by
  obtain ⟨r, hr⟩ := hp
  unfold processBody
  rcases hnt : to_int s.total_chapters with _ | nt
  · simp [hnt]
  rcases hot : to_int it.total_chapters with _ | ot
  · simp [hnt, hot]
  by_cases hgt : nt > ot
  · by_cases hsn : _should_send_notification it
    · by_cases hpe : ((it.notifications.getD
          ⟨Option.none, Option.none, Option.none, Option.none⟩).pushover.getD true)
      · simp [hnt, hot, hgt, hsn, hpe, hr, Except.map]
      · simp [hnt, hot, hgt, hsn, hpe]
    · simp [hnt, hot, hgt, hsn]
  · simp [hnt, hot, hgt]

/-- Two transient failures followed by a success: the body runs after 3
calls with the between-attempt sleeps `0.5 * 1` and `0.5 * 2`. -/
theorem processItem_third_ok (env : ItemEnv) (it : Item) (s : Series)
    (hid : truthyId it.id = true)
    (h0 : env.fetch 0 = .exc) (h1 : env.fetch 1 = .exc) (h2 : env.fetch 2 = .ok s)
    (hm : ((s.state == some "merged") && truthyId s.merged_with) = false) :
    processItem env it = processBody env it s 3 [(1/2 : ℚ) * 1, (1/2 : ℚ) * 2] := by
  unfold processItem
  rw [show (3 : Nat) = 2 + 1 from rfl, retry_fetch_exc env.fetch 2 0 [] h0,
    show (2 : Nat) = 1 + 1 from rfl, retry_fetch_exc env.fetch 1 1 _ h1,
    show (1 : Nat) = 0 + 1 from rfl, retry_fetch_ok env.fetch 0 2 _ s h2]
  norm_num [hid, hm]

/-- Three transient failures: the item is skipped with no mutation after
exactly 3 calls (the code also sleeps `0.5 * 3` after the last failure
before giving up). -/
theorem processItem_all_exc (env : ItemEnv) (it : Item)
    (hid : truthyId it.id = true)
    (h0 : env.fetch 0 = .exc) (h1 : env.fetch 1 = .exc) (h2 : env.fetch 2 = .exc) :
    processItem env it =
      ⟨it, [], 3, [(1/2 : ℚ) * 1, (1/2 : ℚ) * 2, (1/2 : ℚ) * 3], false, false⟩ := by
  unfold processItem
  rw [show (3 : Nat) = 2 + 1 from rfl, retry_fetch_exc env.fetch 2 0 [] h0,
    show (2 : Nat) = 1 + 1 from rfl, retry_fetch_exc env.fetch 1 1 _ h1,
    show (1 : Nat) = 0 + 1 from rfl, retry_fetch_exc env.fetch 0 2 _ h2]
  norm_num [hid, retry_fetch]

def c6xitem : Item :=
  { id := some 9, title := some "G", total_chapters := .int 49,
    last_read := .int 0, status := some "reading",
    notifications := Option.none, cover := Option.none,
    last_chapter_at := Option.none, last_checked := Option.none }

def c6xs : Series :=
  { title := some "G", total_chapters := .int 50, state := Option.none,
    merged_with := Option.none, cover := Option.none,
    last_updated_at := Option.none, source := Option.none }

def c6xenv : ItemEnv :=
  { fetch := fun n => if n < 2 then .exc else .ok c6xs,
    push := ⟨some "tok", some "usr", .raises "connection reset"⟩,
    disc := ⟨false, Option.none, .completes 204 Option.none⟩,
    now := "T6x" }

/-- C6: the claim is false on the code.  Two transient failures are followed
by a successful 3rd attempt that shows progress (49 → 50); policy approves
and pushover is enabled and configured, but its unguarded HTTP post raises,
so the exception skips the rest of the loop body: exactly 3 fetch calls are
made, yet NO state update follows — the item is left entirely unchanged
(not even `last_checked` is written). -/
theorem C6_counterexample :
    (processItem c6xenv c6xitem).fetchCalls = 3 ∧
    to_int c6xitem.total_chapters = some 49 ∧
    to_int c6xs.total_chapters = some 50 ∧
    _should_send_notification c6xitem = true ∧
    (processItem c6xenv c6xitem).item = c6xitem ∧
    (processItem c6xenv c6xitem).item.last_checked = Option.none := by decide

/-- C6 (amended): a transient failure that succeeds on the 3rd attempt makes
exactly 3 fetch calls, with between-attempt delays `1 * 0.5` and `2 * 0.5`
seconds, and — PROVIDED any invoked channel dispatch returns rather than
raising — ends in the normal state update; a failure on all 3 attempts makes
exactly 3 fetch calls, mutates none of the item's stored fields, records no
event, and the pass continues with (and persists) the next item. -/
theorem C6_amended (enva envb : ItemEnv) (penv : PassEnv) (ita itb : Item) (s : Series)
    (hida : truthyId ita.id = true) (hidb : truthyId itb.id = true)
    (ha0 : enva.fetch 0 = .exc) (ha1 : enva.fetch 1 = .exc) (ha2 : enva.fetch 2 = .ok s)
    (hm : ((s.state == some "merged") && truthyId s.merged_with) = false)
    (hpa : ∃ r, pushover enva.push = .ok r)
    (hb0 : envb.fetch 0 = .exc) (hb1 : envb.fetch 1 = .exc) (hb2 : envb.fetch 2 = .exc)
    (hp0 : penv 0 = envb) (hp1 : penv 1 = enva) :
    ((processItem enva ita).fetchCalls = 3 ∧
     (processItem enva ita).sleeps = [(1/2 : ℚ) * 1, (1/2 : ℚ) * 2] ∧
     (processItem enva ita).item = state_update enva.now s (to_int s.total_chapters) ita) ∧
    ((processItem envb itb).fetchCalls = 3 ∧
     (processItem envb itb).item = itb ∧
     (processItem envb itb).events = []) ∧
    (process_once penv [itb, ita]).1 =
      [itb, state_update enva.now s (to_int s.total_chapters) ita] := by
  have hA := processItem_third_ok enva ita s hida ha0 ha1 ha2 hm
  have hB := processItem_all_exc envb itb hidb hb0 hb1 hb2
  refine ⟨⟨?_, ?_, ?_⟩, ⟨?_, ?_, ?_⟩, ?_⟩
  · rw [hA]; exact processBody_fetchCalls enva ita s 3 _
  · rw [hA]; exact processBody_sleeps enva ita s 3 _
  · rw [hA]; exact processBody_item enva ita s 3 _ hpa
  · rw [hB]
  · rw [hB]
  · rw [hB]
  · have : (processItem (penv 1) ita).item =
        state_update enva.now s (to_int s.total_chapters) ita := by
      rw [hp1, hA]; exact processBody_item enva ita s 3 _ hpa
    simp [process_once, processList, hp0, hB, this]

def c6sA : Series :=
  { title := some "E", total_chapters := .int 50, state := Option.none,
    merged_with := Option.none, cover := Option.none,
    last_updated_at := Option.none, source := Option.none }

def c6itA : Item :=
  { id := some 7, title := some "E", total_chapters := .int 49,
    last_read := .int 0, status := some "finished",
    notifications := Option.none, cover := Option.none,
    last_chapter_at := Option.none, last_checked := Option.none }

def c6itB : Item :=
  { id := some 8, title := some "F", total_chapters := .int 12,
    last_read := .int 3, status := some "reading",
    notifications := Option.none, cover := Option.none,
    last_chapter_at := Option.none, last_checked := Option.none }

def c6envA : ItemEnv :=
  { fetch := fun n => if n < 2 then .exc else .ok c6sA,
    push := ⟨Option.none, Option.none, .completes 200 (some 1)⟩,
    disc := ⟨false, Option.none, .completes 204 Option.none⟩,
    now := "T6" }

def c6envB : ItemEnv :=
  { fetch := fun _ => .exc,
    push := ⟨Option.none, Option.none, .completes 200 (some 1)⟩,
    disc := ⟨false, Option.none, .completes 204 Option.none⟩,
    now := "T6" }

def c6penv : PassEnv := fun i => if i == 0 then c6envB else c6envA

/-- C6 (amended) at a concrete input. -/
theorem C6_amended_witness :
    ((processItem c6envA c6itA).fetchCalls = 3 ∧
     (processItem c6envA c6itA).sleeps = [(1/2 : ℚ) * 1, (1/2 : ℚ) * 2] ∧
     (processItem c6envA c6itA).item =
       state_update c6envA.now c6sA (to_int c6sA.total_chapters) c6itA) ∧
    ((processItem c6envB c6itB).fetchCalls = 3 ∧
     (processItem c6envB c6itB).item = c6itB ∧
     (processItem c6envB c6itB).events = []) ∧
    (process_once c6penv [c6itB, c6itA]).1 =
      [c6itB, state_update c6envA.now c6sA (to_int c6sA.total_chapters) c6itA] :=
  C6_amended c6envA c6envB c6penv c6itA c6itB c6sA (by decide) (by decide)
    rfl rfl rfl (by decide) ⟨⟨false, Option.none, some "Missing PUSHOVER_* envs"⟩, rfl⟩
    rfl rfl rfl rfl rfl

/-! ## Claim C7 -/

/-- C7: the policy evaluator is a pure function of the item's stored
notification preferences and status: it returns `false` when
`notifications.enabled` is `false` (default `true` when absent); otherwise,
when `only_when_reading` is `true` (default `true` when absent), it returns
`true` exactly when the status is `"reading"` or `"releasing"`; otherwise it
returns `true`. -/
theorem C7 (it : Item) (st : String) (hst : it.status = some st) :
    _should_send_notification it =
      (let prefs := it.notifications.getD
        ⟨Option.none, Option.none, Option.none, Option.none⟩
       if prefs.enabled.getD true = false then false
       else if prefs.only_when_reading.getD true then
         decide (st = "reading" ∨ st = "releasing")
       else true) := by
  unfold _should_send_notification
  rw [hst]
  by_cases he : ((it.notifications.getD
      ⟨Option.none, Option.none, Option.none, Option.none⟩).enabled.getD true)
  · by_cases ho : ((it.notifications.getD
        ⟨Option.none, Option.none, Option.none, Option.none⟩).only_when_reading.getD true)
    · by_cases h1 : st = "reading"
      · simp [he, ho, h1]
      · by_cases h2 : st = "releasing"
        · simp [he, ho, h1, h2]
        · simp [he, ho, h1, h2]
    · simp [he, ho]
  · simp [he]

/-- C7 at a concrete input (notifications absent, status releasing). -/
theorem C7_witness :
    _should_send_notification tItem =
      (let prefs := tItem.notifications.getD
        ⟨Option.none, Option.none, Option.none, Option.none⟩
       if prefs.enabled.getD true = false then false
       else if prefs.only_when_reading.getD true then
         decide ("reading" = "reading" ∨ "reading" = "releasing")
       else true) :=
  C7 tItem "reading" rfl

/-! ## Claim C8 -/

/-- Shape of the scheduler loop: one pass per iteration, one requested
sleep per pass, every sleep of the form `poll_sleep`. -/
theorem poll_iter_spec (base : ℚ) (u : Nat → ℚ) (rem : Nat) : ∀ i,
    (poll_iter base u i rem).1 = rem + 1 ∧
    (poll_iter base u i rem).2.length = rem + 1 ∧
    ∀ q ∈ (poll_iter base u i rem).2, ∃ j, q = poll_sleep base (u j) := by
  induction rem with
  | zero =>
      intro i
      refine ⟨rfl, rfl, ?_⟩
      intro q hq
      simp [poll_iter] at hq
      exact ⟨i, hq⟩
  | succ n ih =>
      intro i
      refine ⟨?_, ?_, ?_⟩
      · simp [poll_iter, (ih (i + 1)).1]
      · simp [poll_iter, (ih (i + 1)).2.1]
      · intro q hq
        simp only [poll_iter, List.mem_cons] at hq
        rcases hq with hq | hq
        · exact ⟨i, hq⟩
        · exact (ih (i + 1)).2.2 q hq

/-- C8: with a configured interval ≤ 0 the scheduler runs no pass at all;
with a positive interval it requests exactly one sleep per pass, each of
duration `max 1 (interval + jitter)` with `jitter = u i * interval` for the
uniform draw `u i ∈ [-1/10, 1/10]`, so the effective sleep is never below 1
second (and, for intervals ≥ 1, never above `11/10` of the interval). -/
theorem C8 (base : Int) (u : Nat → ℚ) (cancelAt : Nat)
    (hu : ∀ i, -(1/10 : ℚ) ≤ u i ∧ u i ≤ 1/10) :
    (base ≤ 0 → poll_loop base u cancelAt = (0, [])) ∧
    (0 < base →
      (poll_loop base u cancelAt).2.length = (poll_loop base u cancelAt).1 ∧
      ∀ q ∈ (poll_loop base u cancelAt).2,
        (∃ i, q = max 1 ((base : ℚ) + u i * base)) ∧ 1 ≤ q ∧
        ((1 : ℚ) ≤ (base : ℚ) → q ≤ (base : ℚ) * (11/10))) := by
  constructor
  · intro h
    simp [poll_loop, h]
  · intro h
    have hne : ¬ (base ≤ 0) := by omega
    have hs := poll_iter_spec (base : ℚ) u cancelAt 0
    constructor
    · simp [poll_loop, hne, hs.1, hs.2.1]
    · intro q hq
      simp only [poll_loop, hne, if_false] at hq
      obtain ⟨j, hj⟩ := hs.2.2 q hq
      have hq1 : (1 : ℚ) ≤ q := by
        rw [hj, poll_sleep]; exact le_max_left 1 _
      refine ⟨⟨j, by simpa [poll_sleep] using hj⟩, hq1, ?_⟩
      intro hb
      have hb0 : (0 : ℚ) ≤ (base : ℚ) := by linarith
      have hub : u j * base ≤ (1/10 : ℚ) * base :=
        mul_le_mul_of_nonneg_right (hu j).2 hb0
      rw [hj, poll_sleep]
      apply max_le
      · linarith
      · linarith

def c8u : Nat → ℚ := fun _ => 1/10

/-- C8 at a concrete input. -/
theorem C8_witness :
    ((30 : Int) ≤ 0 → poll_loop 30 c8u 1 = (0, [])) ∧
    (0 < (30 : Int) →
      (poll_loop 30 c8u 1).2.length = (poll_loop 30 c8u 1).1 ∧
      ∀ q ∈ (poll_loop 30 c8u 1).2,
        (∃ i, q = max 1 (((30 : Int) : ℚ) + c8u i * (30 : Int))) ∧ 1 ≤ q ∧
        ((1 : ℚ) ≤ ((30 : Int) : ℚ) → q ≤ ((30 : Int) : ℚ) * (11/10))) :=
  C8 30 c8u 1 (fun _ => by constructor <;> norm_num [c8u])

/-! ## Claim C9 -/

theorem coerceIds_int (ids : List Int) :
    coerceIds (ids.map PyVal.int) = some ids := by
  induction ids with
  | nil => rfl
  | cons x xs ih => simp [coerceIds, pyIntCoerce, ih]

theorem le_foldl_max_init (xs : List Int) : ∀ x : Int, x ≤ xs.foldl max x := by
  induction xs with
  | nil => intro x; simp
  | cons y ys ih =>
      intro x
      simpa using le_trans (le_max_left x y) (ih (max x y))

theorem mem_le_foldl_max (xs : List Int) : ∀ (x n : Int), n ∈ x :: xs →
    n ≤ xs.foldl max x := by
  induction xs with
  | nil =>
      intro x n hn
      simp at hn
      simp [hn]
  | cons y ys ih =>
      intro x n hn
      rcases List.mem_cons.1 hn with h | h
      · subst h
        simpa using le_trans (le_max_left n y) (le_foldl_max_init ys (max n y))
      · rcases List.mem_cons.1 h with h | h
        · subst h
          simpa using le_trans (le_max_right x n) (le_foldl_max_init ys (max x n))
        · simpa using ih (max x y) n (List.mem_cons.2 (Or.inr h))

/-- C9: over a store whose ids are integers, the id assigned at write time
is `max(existing ids) + 1` (`1` when the store is empty), hence strictly
greater than every existing id. -/
theorem C9 (ids : List Int) :
    next_notification_id (ids.map PyVal.int) =
      (match ids with
       | [] => 1
       | x :: xs => xs.foldl max x + 1) ∧
    ∀ n ∈ ids, n < next_notification_id (ids.map PyVal.int) := by
  have hm := coerceIds_int ids
  constructor
  · unfold next_notification_id
    rw [hm]
    cases ids with
    | nil => rfl
    | cons x xs => rfl
  · intro n hn
    unfold next_notification_id
    rw [hm]
    cases ids with
    | nil => simp at hn
    | cons x xs =>
        show n < xs.foldl max x + 1
        have := mem_le_foldl_max xs x n hn
        omega

/-- C9 at a concrete input. -/
theorem C9_witness :
    next_notification_id ([3, 7, 5].map PyVal.int) = 8 ∧
    (7 : Int) < next_notification_id ([3, 7, 5].map PyVal.int) := by
  have h := C9 [3, 7, 5]
  refine ⟨?_, h.2 7 (by simp)⟩
  rw [h.1]
  decide

/-! ## Claim C10 -/

def c10penv : PassEnv := fun _ => tEnv

/-- C10: a missing or unparsable watchlist file loads as the empty list
(no exception); a pass over it reports `checked = 0`, records no event, and
its final batch save persists the empty list — the corrupted store is
silently replaced by an empty one. -/
theorem C10 (st : StoreState) (penv : PassEnv)
    (h : st = .absent ∨ st = .corrupt) :
    load_watchlist st = [] ∧
    process_once penv (load_watchlist st) = ([], [], 0) := by
  rcases h with h | h <;> subst h <;> exact ⟨rfl, rfl⟩

/-- C10 at a concrete input. -/
theorem C10_witness :
    load_watchlist .corrupt = [] ∧
    process_once c10penv (load_watchlist .corrupt) = ([], [], 0) :=
  C10 .corrupt c10penv (Or.inr rfl)
example : to_int (.str "-1") = some (-1) := by decide
example : to_int (.str " 700 ") = some 700 := by decide
example : to_int (.str "1.9") = some 1 := by decide
example : to_int (.str "-1.9") = some (-1) := by decide
example : to_int (.str "abc") = Option.none := by decide
example : to_int (.str "") = Option.none := by decide
example : to_int .none = Option.none := by decide
